import Mathlib

/-!
Verification development for the photo filter-and-copy engine (src/cli.ts).

The TypeScript source is shallowly embedded: JS numbers used in filter
comparisons become `ℚ`; the great-circle distance (which goes through
transcendental functions) is embedded over `ℝ`; JS strings become `String`;
optional (possibly `undefined`) fields become `Option`.  The one comparison
of a real-valued distance against a radius inside the copy loop is
abstracted as a Boolean parameter `distGt` of the loop, characterised
against the real `haversineMeters` by the Prop-level `geoPass`.
-/

/-! ## JS string primitives used by the source -/

/-- The character class of the JS regex `\s` (and of `String.prototype.trim`):
space, the ASCII control whitespace, NBSP, the Unicode space separators,
line/paragraph separators and the BOM. -/
def jsWhitespace (c : Char) : Bool :=
  c = ' ' || c = '\t' || c = '\n' || c = '\u000b' || c = '\u000c' || c = '\r' ||
  c = '\u00a0' || c = '\u1680' ||
  ('\u2000' ≤ c && c ≤ '\u200a') ||
  c = '\u2028' || c = '\u2029' || c = '\u202f' || c = '\u205f' ||
  c = '\u3000' || c = '\ufeff'

/-- JS `String.prototype.trim`: strip leading and trailing whitespace. -/
def jsTrim (s : String) : String :=
  String.mk (((s.data.dropWhile jsWhitespace).reverse.dropWhile jsWhitespace).reverse)

/-- JS truthiness of a `string | undefined` value: `undefined` and `""` are falsy. -/
def truthy : Option String → Bool
  | none => false
  | some s => s != ""

/-- JS `hay.includes(needle)`: substring containment. -/
def jsIncludes (hay needle : String) : Bool :=
  decide (needle.data <:+: hay.data)

/-- JS `String.prototype.toLowerCase`, char by char (ASCII case mapping). -/
def jsToLower (s : String) : String := String.mk (s.data.map Char.toLower)

/-- Source `norm`: `(v ?? "").trim().toLowerCase()`. -/
def norm (v : Option String) : String := jsToLower (jsTrim (v.getD ""))

/-- Source `firstNonEmpty`: first argument that is truthy and non-blank, else `""`. -/
def firstNonEmpty : List (Option String) → String
  | [] => ""
  | v :: rest =>
    match v with
    | some s => if s != "" && jsTrim s != "" then s else firstNonEmpty rest
    | none => firstNonEmpty rest

/-! ## Data model (the zod schemas and the `ExifData` type of the source) -/

/-- Source `DateRange`: `{ from?: string, to?: string }`.  `from` is a Lean
keyword, so the fields are spelled `from_` / `to_`. -/
structure DateRange where
  from_ : Option String
  to_ : Option String
deriving DecidableEq

/-- Source `TimeOfDay`: `{ from?: string, to?: string }`. -/
structure TimeOfDay where
  from_ : Option String
  to_ : Option String
deriving DecidableEq

/-- Source `IsoRange`: `{ min?: number, max?: number }`. -/
structure IsoRange where
  min : Option ℚ
  max : Option ℚ
deriving DecidableEq

/-- Source `AltRange`: `{ min?: number, max?: number }`. -/
structure AltRange where
  min : Option ℚ
  max : Option ℚ
deriving DecidableEq

/-- Source `CameraModel`: `{ make?: string, model?: string }`. -/
structure CameraModel where
  make : Option String
  model : Option String
deriving DecidableEq

/-- A geographic center point `{ lat, lon }`. -/
structure Center where
  lat : ℚ
  lon : ℚ
deriving DecidableEq

/-- Source `Location`: optional `bbox` `[minLon, minLat, maxLon, maxLat]`,
optional `center`, optional positive `radius_m`. -/
structure Location where
  bbox : Option (ℚ × ℚ × ℚ × ℚ)
  center : Option Center
  radius_m : Option ℚ
deriving DecidableEq

/-- Source `FilterAndCopyInput` (the `copy_mode` literal carries no data and
is omitted). -/
structure FilterAndCopyInput where
  base_dir : Option String
  output_root : Option String
  original_prompt : String
  date_range : Option DateRange
  time_of_day : Option TimeOfDay
  iso : Option IsoRange
  artist : Option String
  camera : Option CameraModel
  location : Option Location
  altitude : Option AltRange
deriving DecidableEq

/-- Source `ExifData`: one file's metadata record as returned by the
extraction step.  `DateTimeOriginal` is declared `string` in the source type
but checked for absence at runtime, hence `Option`.  `By-line` is spelled
`Byline`. -/
structure ExifData where
  SourceFile : String
  DateTimeOriginal : Option String
  ISO : Option ℚ
  Artist : Option String
  Byline : Option String
  Creator : Option String
  Make : Option String
  Model : Option String
  GPSLatitude : Option ℚ
  GPSLongitude : Option ℚ
  GPSAltitude : Option ℚ
  GPSAltitudeRef : Option ℚ
deriving DecidableEq

/-- Source `MatchReport`. -/
structure MatchReport where
  scanned : ℕ
  matched : ℕ
  skipped_missing_meta : ℕ
  output_dir : String
  files : List String
deriving DecidableEq

/-! ## Great-circle distance (source `haversineMeters`), over `ℝ` -/

/-- JS `Math.atan2(y, x)` for finite arguments (`atan2 0 0 = 0`). -/
noncomputable def atan2 (y x : ℝ) : ℝ :=
  if 0 < x then Real.arctan (y / x)
  else if x < 0 ∧ 0 ≤ y then Real.arctan (y / x) + Real.pi
  else if x < 0 ∧ y < 0 then Real.arctan (y / x) - Real.pi
  else if x = 0 ∧ 0 < y then Real.pi / 2
  else if x = 0 ∧ y < 0 then -(Real.pi / 2)
  else 0

/-- Source `haversineMeters(lat1, lon1, lat2, lon2)`: haversine formula with
Earth radius 6,371,000 m. -/
noncomputable def haversineMeters (lat1 lon1 lat2 lon2 : ℝ) : ℝ :=
  let R : ℝ := 6371000
  let toRad : ℝ → ℝ := fun deg => deg * Real.pi / 180
  let dLat := toRad (lat2 - lat1)
  let dLon := toRad (lon2 - lon1)
  let a := Real.sin (dLat / 2) ^ 2 +
    Real.cos (toRad lat1) * Real.cos (toRad lat2) * Real.sin (dLon / 2) ^ 2
  let c := 2 * atan2 (Real.sqrt a) (Real.sqrt (1 - a))
  R * c

/-! ## Timestamp parser (source `parseExifDateTime`) -/

/-- Source `parseExifDateTime`: matches the regex
`^(\d{4}):(\d{2}):(\d{2})[ T](\d{2}):(\d{2})(?::(\d{2}))?$`, spelled out over
the two admissible lengths (16 chars without seconds, 19 with), and returns
the `YYYY-MM-DD` date string and the `HH:MM` time string. -/
def parseExifDateTime (dto : String) : Option (String × String) :=
  match dto.data with
  | [y1, y2, y3, y4, c1, o1, o2, c2, d1, d2, sep, h1, h2, c3, m1, m2] =>
    if [y1, y2, y3, y4, o1, o2, d1, d2, h1, h2, m1, m2].all Char.isDigit &&
        c1 = ':' && c2 = ':' && (sep = ' ' || sep = 'T') && c3 = ':' then
      some (String.mk [y1, y2, y3, y4, '-', o1, o2, '-', d1, d2],
            String.mk [h1, h2, ':', m1, m2])
    else none
  | [y1, y2, y3, y4, c1, o1, o2, c2, d1, d2, sep, h1, h2, c3, m1, m2, c4, s1, s2] =>
    if [y1, y2, y3, y4, o1, o2, d1, d2, h1, h2, m1, m2, s1, s2].all Char.isDigit &&
        c1 = ':' && c2 = ':' && (sep = ' ' || sep = 'T') && c3 = ':' && c4 = ':' then
      some (String.mk [y1, y2, y3, y4, '-', o1, o2, '-', d1, d2],
            String.mk [h1, h2, ':', m1, m2])
    else none
  | _ => none

/-! ## Output name slug (source `promptSlug`) -/

/-- Step (a) of the slug, with a previous-char-was-whitespace flag so that the
recursion is structural: the first character of a whitespace run becomes a
hyphen and the rest of the run is dropped. -/
def wsRunsGo : List Char → Bool → List Char
  | [], _ => []
  | c :: rest, prevWs =>
    if jsWhitespace c then
      if prevWs then wsRunsGo rest true else '-' :: wsRunsGo rest true
    else c :: wsRunsGo rest false

/-- Step (a) of the slug: the regex replace `\s+` → `"-"`, i.e. every maximal
whitespace run becomes one hyphen. -/
def replaceWsRuns (l : List Char) : List Char := wsRunsGo l false

/-- The nine filesystem-reserved characters replaced in step (b). -/
def forbiddenChars : List Char := ['/', '\\', ':', '*', '?', '"', '<', '>', '|']

/-- One iteration of step (b): JS `v.split(ch).join("-")`, i.e. replace every
occurrence of `ch` by a hyphen. -/
def replaceChar (ch : Char) (l : List Char) : List Char :=
  l.map (fun c => if c = ch then '-' else c)

/-- Step (b) of the slug: the source's `for`-loop over the reserved characters. -/
def replaceForbidden (l : List Char) : List Char :=
  forbiddenChars.foldl (fun v ch => replaceChar ch v) l

/-- Step (c) of the slug, with a previous-char-was-hyphen flag so that the
recursion is structural: only the first hyphen of a hyphen run is kept. -/
def hyphensGo : List Char → Bool → List Char
  | [], _ => []
  | c :: rest, prevHyph =>
    if c = '-' then
      if prevHyph then hyphensGo rest true else '-' :: hyphensGo rest true
    else c :: hyphensGo rest false

/-- Step (c) of the slug: the regex replace `--+` → `"-"`; every maximal run
of hyphens collapses to one. -/
def collapseHyphens (l : List Char) : List Char := hyphensGo l false

/-- Source `promptSlug`: whitespace runs to hyphens, reserved characters to
hyphens, hyphen runs collapsed. -/
def promptSlug (s : String) : String :=
  String.mk (collapseHyphens (replaceForbidden (replaceWsRuns s.data)))

/-! ## Range membership (source `inDateRange`, `inTimeWindow`) -/

/-- Source `inDateRange(dateStr, from, to)`: lexicographic comparison against
the truthy bounds; both bounds falsy means unconditionally in range. -/
def inDateRange (dateStr : String) (fromB toB : Option String) : Bool :=
  if !truthy fromB && !truthy toB then true
  else if truthy fromB && decide (dateStr < fromB.getD "") then false
  else if truthy toB && decide (toB.getD "" < dateStr) then false
  else true

/-- Source `inTimeWindow(hhmm, from, to)`: same shape as `inDateRange`. -/
def inTimeWindow (hhmm : String) (fromB toB : Option String) : Bool :=
  if !truthy fromB && !truthy toB then true
  else if truthy fromB && decide (hhmm < fromB.getD "") then false
  else if truthy toB && decide (toB.getD "" < hhmm) then false
  else true

/-! ## Per-dimension filter checks (the early-`continue` blocks of the
source's `filterAndCopy` loop, lines 231-323), each as a pass/fail Bool -/

/-- Date-range block: the source reads `input.date_range?.from || ""` and
`... .to || ""` and calls `inDateRange`. -/
def datePass (dr : Option DateRange) (dateStr : String) : Bool :=
  inDateRange dateStr (some ((dr.bind DateRange.from_).getD ""))
    (some ((dr.bind DateRange.to_).getD ""))

/-- Time-of-day block: entered only when `input.time_of_day` is present. -/
def timePass (tod : Option TimeOfDay) (hhmm : String) : Bool :=
  match tod with
  | none => true
  | some t => inTimeWindow hhmm t.from_ t.to_

/-- ISO block: a record without a numeric ISO value is a no-op for this
filter. -/
def isoPass (iso : Option IsoRange) (it : ExifData) : Bool :=
  match iso with
  | none => true
  | some r =>
    match it.ISO with
    | none => true
    | some v =>
      !(match r.min with | some m => decide (v < m) | none => false) &&
      !(match r.max with | some m => decide (m < v) | none => false)

/-- Artist block: entered when the artist filter is truthy and non-blank;
the needle is matched case-insensitively against the first non-empty of
Artist, Creator, By-line, and an empty candidate set excludes. -/
def artistPass (artist : Option String) (it : ExifData) : Bool :=
  match artist with
  | none => true
  | some s =>
    if s != "" && jsTrim s != "" then
      let a := norm (some (firstNonEmpty [it.Artist, it.Creator, it.Byline]))
      let needle := norm (some s)
      !(a == "") && jsIncludes a needle
    else true

/-- Camera block: make and model are independent case-insensitive substring
checks, each entered only when its filter string is truthy. -/
def cameraPass (cam : Option CameraModel) (it : ExifData) : Bool :=
  match cam with
  | none => true
  | some c =>
    (match c.make with
     | some mk => if mk != "" then jsIncludes (norm it.Make) (norm (some mk)) else true
     | none => true) &&
    (match c.model with
     | some md => if md != "" then jsIncludes (norm it.Model) (norm (some md)) else true
     | none => true)

/-- JS truthiness of `radius_m` inside
`!!(input.location.center && input.location.radius_m)`: a number is falsy
exactly when it is `0` (`NaN` excluded by the schema). -/
def radiusTruthy : Option ℚ → Bool
  | none => false
  | some r => r != 0

/-- Source `hasCenterRadius`: `!!(input.location.center && input.location.radius_m)`. -/
def hasCenterRadius (loc : Location) : Bool :=
  loc.center.isSome && radiusTruthy loc.radius_m

/-- The bbox comparison of the geo block:
`lon >= minLon && lon <= maxLon && lat >= minLat && lat <= maxLat`. -/
def bboxContains (b : ℚ × ℚ × ℚ × ℚ) (lat lon : ℚ) : Bool :=
  decide (b.1 ≤ lon) && decide (lon ≤ b.2.2.1) &&
  decide (b.2.1 ≤ lat) && decide (lat ≤ b.2.2.2)

/-- Geo block of the loop, with the one real-valued comparison
(`dist > radius_m` on the haversine distance) abstracted as `distGt`;
`distGt c r lat lon` stands for `haversineMeters c.lat c.lon lat lon > r`.
The Prop-level `geoPass` below fixes that comparison to the real one. -/
def geoPassDec (distGt : Center → ℚ → ℚ → ℚ → Bool)
    (loc? : Option Location) (it : ExifData) : Bool :=
  match loc? with
  | none => true
  | some loc =>
    if loc.bbox.isSome || hasCenterRadius loc then
      match it.GPSLatitude, it.GPSLongitude with
      | some lat, some lon =>
        if hasCenterRadius loc then
          match loc.center, loc.radius_m with
          | some c, some r => !distGt c r lat lon
          | _, _ => true
        else
          match loc.bbox with
          | some b => bboxContains b lat lon
          | none => true
      | _, _ => false
    else true

/-- Geo block of the loop with the radius comparison spelled out against the
real `haversineMeters`; this is the reference meaning of `geoPassDec`. -/
def geoPass (loc? : Option Location) (it : ExifData) : Prop :=
  match loc? with
  | none => True
  | some loc =>
    if loc.bbox.isSome || hasCenterRadius loc then
      match it.GPSLatitude, it.GPSLongitude with
      | some lat, some lon =>
        if hasCenterRadius loc then
          match loc.center, loc.radius_m with
          | some c, some r =>
            ¬((r : ℝ) < haversineMeters (c.lat : ℝ) (c.lon : ℝ) (lat : ℝ) (lon : ℝ))
          | _, _ => True
        else
          match loc.bbox with
          | some b => bboxContains b lat lon = true
          | none => True
      | _, _ => False
    else True

/-- Altitude block: entered when a min or max is given; a record without an
altitude is excluded; the altitude is negated when the reference flag is 1. -/
def altPass (ar? : Option AltRange) (it : ExifData) : Bool :=
  match ar? with
  | none => true
  | some ar =>
    if ar.min.isSome || ar.max.isSome then
      match it.GPSAltitude with
      | none => false
      | some alt0 =>
        let alt : ℚ := if it.GPSAltitudeRef = some 1 then -alt0 else alt0
        !(match ar.min with | some m => decide (alt < m) | none => false) &&
        !(match ar.max with | some m => decide (m < alt) | none => false)
    else true

/-! ## The per-record verdict and the copy loop (source `filterAndCopy`) -/

/-- What the loop body does with one record before any filesystem access:
skip it (timestamp missing or unparsable), exclude it (some filter dimension
or an empty source path), or pass it on to the copy step. -/
inductive Outcome where
  | skippedMeta
  | excluded
  | pass (src : String)
deriving DecidableEq

/-- The pure part of the source's loop body, in source order: timestamp
first, then date range, time window, ISO, artist, camera, location,
altitude, then the empty-`SourceFile` check. -/
def recordOutcome (distGt : Center → ℚ → ℚ → ℚ → Bool)
    (input : FilterAndCopyInput) (it : ExifData) : Outcome :=
  match it.DateTimeOriginal with
  | none => .skippedMeta
  | some dto =>
    if dto = "" then .skippedMeta
    else
      match parseExifDateTime dto with
      | none => .skippedMeta
      | some (dateStr, hhmm) =>
        if !datePass input.date_range dateStr then .excluded
        else if !timePass input.time_of_day hhmm then .excluded
        else if !isoPass input.iso it then .excluded
        else if !artistPass input.artist it then .excluded
        else if !cameraPass input.camera it then .excluded
        else if !geoPassDec distGt input.location it then .excluded
        else if !altPass input.altitude it then .excluded
        else if it.SourceFile = "" then .excluded
        else .pass it.SourceFile

/-- The filesystem effects the loop depends on: today's local date (used for
the output-directory name), the extraction step's records per base
directory, whether `stat` succeeds on a source path, and whether the copy of
a source path fails (a failing copy aborts the whole run). -/
structure Env where
  today : String
  index : String → List ExifData
  statOk : String → Bool
  copyFails : String → Bool

/-- Node `path.join` for the simple shapes used here. -/
def pathJoin (a b : String) : String := a ++ "/" ++ b

/-- Node `path.basename`: the part after the last separator. -/
def basename (p : String) : String :=
  String.mk ((p.data.reverse.takeWhile (· ≠ '/')).reverse)

/-- The source loop over the extracted records, carrying the `scanned`,
`matched`, `skipped` counters and the destination list; a failing copy
aborts with the error, everything else continues. -/
def runLoop (distGt : Center → ℚ → ℚ → ℚ → Bool) (env : Env)
    (input : FilterAndCopyInput) (outDir : String) :
    List ExifData → ℕ → ℕ → ℕ → List String →
    Except String (ℕ × ℕ × ℕ × List String)
  | [], s, m, k, fs => .ok (s, m, k, fs)
  | it :: rest, s, m, k, fs =>
    match recordOutcome distGt input it with
    | .skippedMeta => runLoop distGt env input outDir rest (s + 1) m (k + 1) fs
    | .excluded => runLoop distGt env input outDir rest (s + 1) m k fs
    | .pass src =>
      if !env.statOk src then runLoop distGt env input outDir rest (s + 1) m k fs
      else if env.copyFails src then .error "copy failed"
      else runLoop distGt env input outDir rest (s + 1) (m + 1) k
        (fs ++ [pathJoin outDir (basename src)])

/-- Source `filterAndCopy`: reject a blank `base_dir`, build the output
directory name from today's date and the prompt slug, run the loop over the
extraction step's records, and package the counters into a `MatchReport`. -/
def filterAndCopy (distGt : Center → ℚ → ℚ → ℚ → Bool) (env : Env)
    (outRoot : String) (input : FilterAndCopyInput) :
    Except String MatchReport :=
  match input.base_dir with
  | none => .error "base_dir required"
  | some bd =>
    if jsTrim bd = "" then .error "base_dir required"
    else
      let outDir := pathJoin outRoot (env.today ++ "_" ++ promptSlug input.original_prompt)
      match runLoop distGt env input outDir (env.index bd) 0 0 0 [] with
      | .error e => .error e
      | .ok (s, m, k, fs) => .ok ⟨s, m, k, outDir, fs⟩

/-! ## Shared concrete sample data -/

/-- A record with every optional field absent and an empty source path. -/
def emptyRecord : ExifData :=
  ⟨"", none, none, none, none, none, none, none, none, none, none, none⟩

/-- An input with every optional field absent. -/
def emptyInput : FilterAndCopyInput :=
  ⟨none, none, "", none, none, none, none, none, none, none⟩

/-! ## Claim theorems -/

/-- C8: the great-circle distance is symmetric in its two coordinate pairs
and is `0` on identical points. -/
theorem C8_haversineMeters_symm_self :
    (∀ lat1 lon1 lat2 lon2 : ℝ,
      haversineMeters lat1 lon1 lat2 lon2 = haversineMeters lat2 lon2 lat1 lon1) ∧
    (∀ lat lon : ℝ, haversineMeters lat lon lat lon = 0) := by
  constructor
  · intro lat1 lon1 lat2 lon2
    have key : ∀ u v : ℝ,
        Real.sin ((u - v) * Real.pi / 180 / 2) ^ 2 =
          Real.sin ((v - u) * Real.pi / 180 / 2) ^ 2 := by
      intro u v
      have h : (u - v) * Real.pi / 180 / 2 = -((v - u) * Real.pi / 180 / 2) := by ring
      rw [h, Real.sin_neg, neg_sq]
    simp only [haversineMeters]
    rw [key lat2 lat1, key lon2 lon1, mul_comm (Real.cos (lat1 * Real.pi / 180))]
  · intro lat lon
    simp only [haversineMeters, sub_self, zero_mul, zero_div, Real.sin_zero]
    norm_num [atan2, Real.sqrt_zero, Real.sqrt_one, Real.arctan_zero]

/-- C5: the time-of-day window is an inclusive lexicographic comparison
`from ≤ hhmm ≤ to` on the time strings, an absent bound is unbounded on
that side, and a window with `from > to` matches no time string at all. -/
theorem C5_inTimeWindow_lex :
    (∀ hhmm f t : String, f ≠ "" → t ≠ "" →
      (inTimeWindow hhmm (some f) (some t) = true ↔ f ≤ hhmm ∧ hhmm ≤ t)) ∧
    (∀ hhmm f : String, f ≠ "" →
      (inTimeWindow hhmm (some f) none = true ↔ f ≤ hhmm)) ∧
    (∀ hhmm t : String, t ≠ "" →
      (inTimeWindow hhmm none (some t) = true ↔ hhmm ≤ t)) ∧
    (∀ hhmm : String, inTimeWindow hhmm none none = true) ∧
    (∀ hhmm f t : String, f ≠ "" → t ≠ "" → t < f →
      inTimeWindow hhmm (some f) (some t) = false) := by
  have hiff : ∀ hhmm f t : String, f ≠ "" → t ≠ "" →
      (inTimeWindow hhmm (some f) (some t) = true ↔ f ≤ hhmm ∧ hhmm ≤ t) := by
    intro hhmm f t hf ht
    simp [inTimeWindow, truthy, hf, ht, not_lt]
  refine ⟨hiff, ?_, ?_, ?_, ?_⟩
  · intro hhmm f hf
    simp [inTimeWindow, truthy, hf, not_lt]
  · intro hhmm t ht
    simp [inTimeWindow, truthy, ht, not_lt]
  · intro hhmm
    simp [inTimeWindow, truthy]
  · intro hhmm f t hf ht hlt
    rcases hb : inTimeWindow hhmm (some f) (some t) with _ | _
    · rfl
    · obtain ⟨h1, h2⟩ := (hiff hhmm f t hf ht).mp hb
      exact absurd (le_trans h1 h2) (not_le.mpr hlt)

/-- Witness for C5 at the window 09:00–11:00 and the time 10:30. -/
theorem C5_inTimeWindow_lex_witness :
    ("09:00" : String) ≠ "" ∧ ("11:00" : String) ≠ "" ∧
    (inTimeWindow "10:30" (some "09:00") (some "11:00") = true ↔
      ("09:00" : String) ≤ "10:30" ∧ ("10:30" : String) ≤ "11:00") :=
  ⟨by decide, by decide,
    C5_inTimeWindow_lex.1 "10:30" "09:00" "11:00" (by decide) (by decide)⟩

/-- C3: a dimension that is entirely absent from the filter never excludes
any record: each per-dimension check passes every record when its filter
field is `none`. -/
theorem C3_absent_dimension_identity :
    (∀ dateStr : String, datePass none dateStr = true) ∧
    (∀ hhmm : String, timePass none hhmm = true) ∧
    (∀ it : ExifData, isoPass none it = true) ∧
    (∀ it : ExifData, artistPass none it = true) ∧
    (∀ it : ExifData, cameraPass none it = true) ∧
    (∀ (distGt : Center → ℚ → ℚ → ℚ → Bool) (it : ExifData),
      geoPassDec distGt none it = true) ∧
    (∀ it : ExifData, geoPass none it) ∧
    (∀ it : ExifData, altPass none it = true) :=
  ⟨fun _ => rfl, fun _ => rfl, fun _ => rfl, fun _ => rfl, fun _ => rfl,
    fun _ _ => rfl, fun _ => trivial, fun _ => rfl⟩

/-- The Scenario-4 record: altitude 10 with below-sea-level reference flag. -/
def belowSeaRec : ExifData :=
  { emptyRecord with GPSAltitude := some 10, GPSAltitudeRef := some 1 }

/-- C6: with an altitude bound present, a record without an altitude is
excluded, and otherwise the record passes iff the recorded altitude —
negated exactly when the reference flag is 1 — lies inclusively within the
bounds; in particular altitude 10 with flag 1 fails the bound `min = 0`. -/
theorem C6_altitude_sign_and_bounds :
    (∀ (ar : AltRange) (it : ExifData), ar.min.isSome ∨ ar.max.isSome →
      (it.GPSAltitude = none → altPass (some ar) it = false) ∧
      (∀ a : ℚ, it.GPSAltitude = some a →
        (altPass (some ar) it = true ↔
          ((∀ m, ar.min = some m → m ≤ (if it.GPSAltitudeRef = some 1 then -a else a)) ∧
           (∀ m, ar.max = some m →
             (if it.GPSAltitudeRef = some 1 then -a else a) ≤ m))))) ∧
    altPass (some ⟨some 0, none⟩) belowSeaRec = false := by
  constructor
  · intro ar it hp
    have hp' : (ar.min.isSome || ar.max.isSome) = true := by
      rcases hp with h | h <;> simp [h]
    constructor
    · intro hnone
      simp [altPass, hp', hnone]
    · intro a ha
      rcases hmin : ar.min with _ | m <;> rcases hmax : ar.max with _ | M <;>
        simp [altPass, hp', ha, hmin, hmax, not_lt]
  · decide

/-- Witness for C6: bounds `[-20, 0]` against the altitude-10, flag-1 record,
whose effective altitude -10 lies inside. -/
theorem C6_altitude_sign_and_bounds_witness :
    ((some (-20 : ℚ)).isSome = true ∨ (some (0 : ℚ)).isSome = true) ∧
    ((belowSeaRec.GPSAltitude = none →
        altPass (some ⟨some (-20), some 0⟩) belowSeaRec = false) ∧
      (∀ a : ℚ, belowSeaRec.GPSAltitude = some a →
        (altPass (some ⟨some (-20), some 0⟩) belowSeaRec = true ↔
          ((∀ m, (some (-20 : ℚ)) = some m →
              m ≤ (if belowSeaRec.GPSAltitudeRef = some 1 then -a else a)) ∧
           (∀ m, (some (0 : ℚ)) = some m →
              (if belowSeaRec.GPSAltitudeRef = some 1 then -a else a) ≤ m))))) :=
  ⟨Or.inl rfl,
    C6_altitude_sign_and_bounds.1 ⟨some (-20), some 0⟩ belowSeaRec (Or.inl rfl)⟩

/-- C10: a location with a center but no radius and no bbox makes the geo
block a no-op: every record passes it, GPS-less records included. -/
theorem C10_center_without_radius_noop :
    (∀ (c : Center) (it : ExifData), geoPass (some ⟨none, some c, none⟩) it) ∧
    (∀ (distGt : Center → ℚ → ℚ → ℚ → Bool) (c : Center) (it : ExifData),
      geoPassDec distGt (some ⟨none, some c, none⟩) it = true) ∧
    geoPass (some ⟨none, some ⟨37, 127⟩, none⟩)
      { emptyRecord with GPSLatitude := none, GPSLongitude := none } := by
  refine ⟨?_, ?_, ?_⟩
  · intro c it
    simp [geoPass, hasCenterRadius, radiusTruthy]
  · intro distGt c it
    rfl
  · simp [geoPass, hasCenterRadius, radiusTruthy]

/-- C4: when both a bbox and a center+radius are supplied, the bbox is
ignored (it is universally quantified and absent from the conclusion) and a
record with coordinates passes the geo block iff the great-circle distance
from the center is at most the radius. -/
theorem C4_center_radius_precedence :
    ∀ (loc : Location) (b : ℚ × ℚ × ℚ × ℚ) (c : Center) (r : ℚ)
      (it : ExifData) (lat lon : ℚ),
      loc.bbox = some b → loc.center = some c → loc.radius_m = some r → 0 < r →
      it.GPSLatitude = some lat → it.GPSLongitude = some lon →
      (geoPass (some loc) it ↔
        haversineMeters (c.lat : ℝ) (c.lon : ℝ) (lat : ℝ) (lon : ℝ) ≤ (r : ℝ)) := by
  intro loc b c r it lat lon hb hc hr hrpos hlat hlon
  have hne : (r != 0) = true := by
    simp [bne]
    exact ne_of_gt hrpos
  simp [geoPass, hasCenterRadius, radiusTruthy, hb, hc, hr, hlat, hlon, hne, not_lt]

/-- Witness for C4 at a location carrying both a bbox and center `(0,0)`
with radius 5, against a record at `(0,0)`. -/
theorem C4_center_radius_precedence_witness :
    ((⟨some (1, 2, 3, 4), some ⟨0, 0⟩, some 5⟩ : Location).bbox = some (1, 2, 3, 4)) ∧
    ((⟨some (1, 2, 3, 4), some ⟨0, 0⟩, some 5⟩ : Location).center = some ⟨0, 0⟩) ∧
    ((⟨some (1, 2, 3, 4), some ⟨0, 0⟩, some 5⟩ : Location).radius_m = some 5) ∧
    (0 : ℚ) < 5 ∧
    (geoPass (some ⟨some (1, 2, 3, 4), some ⟨0, 0⟩, some 5⟩)
        { emptyRecord with GPSLatitude := some 0, GPSLongitude := some 0 } ↔
      haversineMeters ((0 : ℚ) : ℝ) ((0 : ℚ) : ℝ) ((0 : ℚ) : ℝ) ((0 : ℚ) : ℝ) ≤
        ((5 : ℚ) : ℝ)) :=
  ⟨rfl, rfl, rfl, by decide,
    C4_center_radius_precedence ⟨some (1, 2, 3, 4), some ⟨0, 0⟩, some 5⟩
      (1, 2, 3, 4) ⟨0, 0⟩ 5
      { emptyRecord with GPSLatitude := some 0, GPSLongitude := some 0 }
      0 0 rfl rfl rfl (by decide) rfl rfl⟩

/-- C7: with a bbox constraint (and no center+radius), a record with
coordinates passes iff its longitude and latitude lie inclusively in the
box; a record lacking both coordinates is excluded under any geo
constraint; and the Scenario-3 points land inside resp. outside the Seoul
bbox. -/
theorem C7_bbox_inclusive :
    (∀ (loc : Location) (b : ℚ × ℚ × ℚ × ℚ) (it : ExifData) (lat lon : ℚ),
      loc.bbox = some b → hasCenterRadius loc = false →
      it.GPSLatitude = some lat → it.GPSLongitude = some lon →
      (geoPass (some loc) it ↔
        (b.1 ≤ lon ∧ lon ≤ b.2.2.1 ∧ b.2.1 ≤ lat ∧ lat ≤ b.2.2.2))) ∧
    (∀ (loc : Location) (it : ExifData),
      loc.bbox.isSome = true ∨ hasCenterRadius loc = true →
      it.GPSLatitude = none → it.GPSLongitude = none →
      ¬ geoPass (some loc) it) ∧
    geoPass (some ⟨some (126.76, 37.4, 127.18, 37.7), none, none⟩)
      { emptyRecord with GPSLatitude := some 37.55, GPSLongitude := some 126.98 } ∧
    ¬ geoPass (some ⟨some (126.76, 37.4, 127.18, 37.7), none, none⟩)
      { emptyRecord with GPSLatitude := some 37.55, GPSLongitude := some 125.0 } := by
  refine ⟨?_, ?_, ?_, ?_⟩
  · intro loc b it lat lon hb hcr hlat hlon
    simp [geoPass, hb, hcr, hlat, hlon, bboxContains, Bool.and_eq_true, and_assoc]
  · intro loc it hp hlat hlon
    rcases hp with h | h <;> simp [geoPass, h, hlat, hlon]
  · simp only [geoPass, hasCenterRadius, radiusTruthy]
    norm_num [bboxContains]
  · simp only [geoPass, hasCenterRadius, radiusTruthy]
    norm_num [bboxContains]

/-- Witness for C7 at the unit box `[0, 0, 2, 2]` and the point `(1, 1)`. -/
theorem C7_bbox_inclusive_witness :
    ((⟨some (0, 0, 2, 2), none, none⟩ : Location).bbox = some (0, 0, 2, 2)) ∧
    (hasCenterRadius ⟨some (0, 0, 2, 2), none, none⟩ = false) ∧
    (geoPass (some ⟨some (0, 0, 2, 2), none, none⟩)
        { emptyRecord with GPSLatitude := some 1, GPSLongitude := some 1 } ↔
      ((0 : ℚ) ≤ 1 ∧ (1 : ℚ) ≤ 2 ∧ (0 : ℚ) ≤ 1 ∧ (1 : ℚ) ≤ 2)) :=
  ⟨rfl, rfl,
    C7_bbox_inclusive.1 ⟨some (0, 0, 2, 2), none, none⟩ (0, 0, 2, 2)
      { emptyRecord with GPSLatitude := some 1, GPSLongitude := some 1 }
      1 1 rfl rfl rfl rfl⟩

/-! ## Slug reference transformation and cleanliness -/

/-- Step (b) as the specification words it: one character-by-character pass
replacing each reserved character with a hyphen. -/
def mapForbidden (l : List Char) : List Char :=
  l.map (fun c => if c ∈ forbiddenChars then '-' else c)

/-- No two consecutive hyphens. -/
def noHyphenRun : List Char → Bool
  | a :: b :: rest => !(a = '-' && b = '-') && noHyphenRun (b :: rest)
  | _ => true

/-- An already-clean prompt: no whitespace, no reserved characters, no run
of two or more hyphens. -/
def cleanPrompt (s : String) : Bool :=
  s.data.all (fun c => !jsWhitespace c && !decide (c ∈ forbiddenChars)) &&
    noHyphenRun s.data

/-- The source's sequential split/join loop over the reserved characters
equals the single character-by-character replacement pass. -/
theorem foldl_replaceChar (chs l : List Char) :
    chs.foldl (fun v ch => replaceChar ch v) l
      = l.map (fun c => if c ∈ chs then '-' else c) := by
  induction chs generalizing l with
  | nil => simp
  | cons ch chs ih =>
    rw [List.foldl_cons, ih, replaceChar, List.map_map]
    congr 1
    funext c
    by_cases hc : c = ch
    · by_cases h2 : ('-' : Char) ∈ chs <;> simp [hc, h2]
    · simp [hc, Function.comp]

/-- Step (a) is the identity on whitespace-free text. -/
theorem wsRunsGo_clean (l : List Char) (hl : ∀ c ∈ l, jsWhitespace c = false) :
    ∀ b, wsRunsGo l b = l := by
  induction l with
  | nil => intro b; rfl
  | cons c rest ih =>
    intro b
    have hc := hl c (by simp)
    simp only [wsRunsGo, hc]
    simp [ih (fun c hc => hl c (by simp [hc]))]

/-- A tail of a hyphen-run-free list is hyphen-run-free. -/
theorem noHyphenRun_tail {a : Char} {l : List Char}
    (h : noHyphenRun (a :: l) = true) : noHyphenRun l = true := by
  cases l with
  | nil => rfl
  | cons b rest =>
    simp only [noHyphenRun, Bool.and_eq_true] at h
    exact h.2

/-- Step (c) is the identity on hyphen-run-free text. -/
theorem hyphensGo_clean (l : List Char) (hl : noHyphenRun l = true) :
    ∀ b, (b = true → l.head? ≠ some '-') → hyphensGo l b = l := by
  induction l with
  | nil => intro b _; rfl
  | cons c rest ih =>
    intro b hb
    by_cases hc : c = '-'
    · cases b with
      | true => exact absurd (by simp [hc]) (hb rfl)
      | false =>
        have hhead : rest.head? ≠ some '-' := by
          cases rest with
          | nil => simp
          | cons b' rest' =>
            simp only [hc, noHyphenRun, Bool.and_eq_true] at hl
            have h1 := hl.1
            simp only [decide_eq_true_eq, Bool.not_and, Bool.or_eq_true,
              Bool.not_eq_true', decide_eq_false_iff_not] at h1
            rcases h1 with h1 | h1
            · simp at h1
            · simp [h1]
        have hrec : hyphensGo rest true = rest :=
          ih (noHyphenRun_tail hl) true (fun _ => hhead)
        simp [hyphensGo, hc, hrec]
    · have hrec : hyphensGo rest false = rest :=
        ih (noHyphenRun_tail hl) false (by simp)
      simp [hyphensGo, hc, hrec]

/-- C9: the slug equals the three-step reference transformation — whitespace
runs to single hyphens, then the character-by-character reserved-character
replacement, then hyphen-run collapsing — it is the identity on already
clean input, and it maps the Scenario-5 prompt as documented. -/
theorem C9_promptSlug_reference :
    (∀ s : String, promptSlug s =
      String.mk (collapseHyphens (mapForbidden (replaceWsRuns s.data)))) ∧
    (∀ s : String, cleanPrompt s = true → promptSlug s = s) ∧
    promptSlug "Seoul trip: day 1!" = "Seoul-trip-day-1!" := by
  refine ⟨?_, ?_, by decide⟩
  · intro s
    rw [promptSlug, replaceForbidden, foldl_replaceChar]
    rfl
  · intro s hs
    simp only [cleanPrompt, Bool.and_eq_true, List.all_eq_true] at hs
    obtain ⟨hchars, hruns⟩ := hs
    have hws : ∀ c ∈ s.data, jsWhitespace c = false := by
      intro c hc
      have := hchars c hc
      simp only [Bool.and_eq_true, Bool.not_eq_true'] at this
      exact this.1
    have hforb : ∀ c ∈ s.data, c ∉ forbiddenChars := by
      intro c hc
      have := hchars c hc
      simp only [Bool.and_eq_true, Bool.not_eq_true'] at this
      simpa using this.2
    have hmap : s.data.map (fun c => if c ∈ forbiddenChars then '-' else c)
        = s.data := by
      conv_rhs => rw [← List.map_id s.data]
      apply List.map_congr_left
      intro c hc
      simp [hforb c hc]
    rw [promptSlug, replaceWsRuns, wsRunsGo_clean s.data hws false,
      replaceForbidden, foldl_replaceChar, hmap, collapseHyphens,
      hyphensGo_clean s.data hruns false (by simp)]

/-- Witness for C9: the already-clean prompt `"abc-def!"` is fixed by the
slug. -/
theorem C9_promptSlug_reference_witness :
    cleanPrompt "abc-def!" = true ∧ promptSlug "abc-def!" = "abc-def!" :=
  ⟨by decide, C9_promptSlug_reference.2.1 "abc-def!" (by decide)⟩

/-! ## The timestamp pattern as the specification words it -/

/-- The capture-timestamp pattern from the specification: `YYYY:MM:DD`, a
space or `T` separator, `HH:MM`, and an optional `:SS`, nothing else. -/
def specTimestampFormat (s : String) : Prop :=
  ∃ (y mo d hh mi : List Char) (sep : Char) (secPart : List Char),
    s.data = y ++ ':' :: mo ++ ':' :: d ++ sep :: hh ++ ':' :: mi ++ secPart ∧
    y.length = 4 ∧ mo.length = 2 ∧ d.length = 2 ∧ hh.length = 2 ∧ mi.length = 2 ∧
    (y ++ mo ++ d ++ hh ++ mi).all Char.isDigit = true ∧
    (sep = ' ' ∨ sep = 'T') ∧
    (secPart = [] ∨ ∃ ss : List Char, secPart = ':' :: ss ∧ ss.length = 2 ∧
      ss.all Char.isDigit = true)

/-- A list of length four is a four-element literal. -/
theorem exists_list_len_four {α : Type} {l : List α} (h : l.length = 4) :
    ∃ a b c d, l = [a, b, c, d] := by
  rcases l with _ | ⟨a, l⟩
  · exact absurd h (by simp)
  rcases l with _ | ⟨b, l⟩
  · exact absurd h (by simp)
  rcases l with _ | ⟨c, l⟩
  · exact absurd h (by simp)
  rcases l with _ | ⟨d, l⟩
  · exact absurd h (by simp)
  rcases l with _ | ⟨e, l⟩
  · exact ⟨a, b, c, d, rfl⟩
  · simp [List.length] at h

set_option maxHeartbeats 1600000 in
/-- The parser succeeds exactly on strings of the specification's timestamp
pattern. -/
theorem parseExifDateTime_iff_spec (s : String) :
    (parseExifDateTime s).isSome = true ↔ specTimestampFormat s := by
  constructor
  · intro h
    unfold parseExifDateTime at h
    split at h
    · rename_i y1 y2 y3 y4 c1 o1 o2 c2 d1 d2 sep h1 h2 c3 m1 m2 heq
      split at h
      · rename_i hc
        simp only [Bool.and_eq_true, Bool.or_eq_true, List.all_eq_true,
          decide_eq_true_eq] at hc
        obtain ⟨⟨⟨⟨hdig, hc1⟩, hc2⟩, hsep⟩, hc3⟩ := hc
        refine ⟨[y1, y2, y3, y4], [o1, o2], [d1, d2], [h1, h2], [m1, m2], sep, [],
          ?_, rfl, rfl, rfl, rfl, rfl, ?_, hsep, Or.inl rfl⟩
        · simp [heq, hc1, hc2, hc3]
        · simp only [List.all_eq_true]
          intro c hcmem
          apply hdig
          simp only [List.append_assoc, List.mem_append, List.mem_cons,
            List.not_mem_nil, or_false] at hcmem
          simp only [List.mem_cons, List.not_mem_nil, or_false]
          tauto
      · simp at h
    · rename_i y1 y2 y3 y4 c1 o1 o2 c2 d1 d2 sep h1 h2 c3 m1 m2 c4 s1 s2 heq
      split at h
      · rename_i hc
        simp only [Bool.and_eq_true, Bool.or_eq_true, List.all_eq_true,
          decide_eq_true_eq] at hc
        obtain ⟨⟨⟨⟨⟨hdig, hc1⟩, hc2⟩, hsep⟩, hc3⟩, hc4⟩ := hc
        refine ⟨[y1, y2, y3, y4], [o1, o2], [d1, d2], [h1, h2], [m1, m2], sep,
          [':', s1, s2], ?_, rfl, rfl, rfl, rfl, rfl, ?_, hsep,
          Or.inr ⟨[s1, s2], rfl, rfl, ?_⟩⟩
        · simp [heq, hc1, hc2, hc3, hc4]
        · simp only [List.all_eq_true]
          intro c hcmem
          apply hdig
          simp only [List.append_assoc, List.mem_append, List.mem_cons,
            List.not_mem_nil, or_false] at hcmem
          simp only [List.mem_cons, List.not_mem_nil, or_false]
          tauto
        · simp only [List.all_eq_true]
          intro c hcmem
          apply hdig
          simp only [List.mem_cons, List.not_mem_nil, or_false] at hcmem
          simp only [List.mem_cons, List.not_mem_nil, or_false]
          tauto
      · simp at h
    · simp at h
  · rintro ⟨y, mo, d, hh, mi, sep, secPart, hdata, hy, hmo, hd, hhh, hmi,
      hdig, hsep, hsec⟩
    obtain ⟨a1, a2, a3, a4, rfl⟩ := exists_list_len_four hy
    obtain ⟨b1, b2, rfl⟩ := List.length_eq_two.mp hmo
    obtain ⟨c1, c2, rfl⟩ := List.length_eq_two.mp hd
    obtain ⟨e1, e2, rfl⟩ := List.length_eq_two.mp hhh
    obtain ⟨f1, f2, rfl⟩ := List.length_eq_two.mp hmi
    simp only [List.all_eq_true, List.append_assoc, List.mem_append,
      List.mem_cons, List.not_mem_nil, or_false] at hdig
    have hd1 : a1.isDigit = true := hdig a1 (by tauto)
    have hd2 : a2.isDigit = true := hdig a2 (by tauto)
    have hd3 : a3.isDigit = true := hdig a3 (by tauto)
    have hd4 : a4.isDigit = true := hdig a4 (by tauto)
    have hd5 : b1.isDigit = true := hdig b1 (by tauto)
    have hd6 : b2.isDigit = true := hdig b2 (by tauto)
    have hd7 : c1.isDigit = true := hdig c1 (by tauto)
    have hd8 : c2.isDigit = true := hdig c2 (by tauto)
    have hd9 : e1.isDigit = true := hdig e1 (by tauto)
    have hd10 : e2.isDigit = true := hdig e2 (by tauto)
    have hd11 : f1.isDigit = true := hdig f1 (by tauto)
    have hd12 : f2.isDigit = true := hdig f2 (by tauto)
    rcases hsec with rfl | ⟨ss, rfl, hss, hssdig⟩
    · have hdata' : s.data = [a1, a2, a3, a4, ':', b1, b2, ':', c1, c2, sep,
          e1, e2, ':', f1, f2] := by simpa using hdata
      unfold parseExifDateTime
      rw [hdata']
      rcases hsep with rfl | rfl <;>
        simp [hd1, hd2, hd3, hd4, hd5, hd6, hd7, hd8, hd9, hd10, hd11, hd12]
    · obtain ⟨g1, g2, rfl⟩ := List.length_eq_two.mp hss
      have hdata' : s.data = [a1, a2, a3, a4, ':', b1, b2, ':', c1, c2, sep,
          e1, e2, ':', f1, f2, ':', g1, g2] := by simpa using hdata
      unfold parseExifDateTime
      rw [hdata']
      simp only [List.all_eq_true, List.mem_cons, List.not_mem_nil,
        or_false] at hssdig
      have hg1 : g1.isDigit = true := hssdig g1 (by tauto)
      have hg2 : g2.isDigit = true := hssdig g2 (by tauto)
      rcases hsep with rfl | rfl <;>
        simp [hd1, hd2, hd3, hd4, hd5, hd6, hd7, hd8, hd9, hd10, hd11, hd12,
          hg1, hg2]

/-- C2: a record whose raw timestamp is absent, or fails the pattern, is
skipped — before and regardless of every filter dimension — and the loop
counts it in `skipped_missing_meta`; failing the pattern is exactly
`parseExifDateTime` returning `none`. -/
theorem C2_missing_or_unparsable_timestamp_skipped :
    (∀ (distGt : Center → ℚ → ℚ → ℚ → Bool) (input : FilterAndCopyInput)
      (it : ExifData), it.DateTimeOriginal = none →
      recordOutcome distGt input it = .skippedMeta) ∧
    (∀ (distGt : Center → ℚ → ℚ → ℚ → Bool) (input : FilterAndCopyInput)
      (it : ExifData) (dto : String), it.DateTimeOriginal = some dto →
      parseExifDateTime dto = none →
      recordOutcome distGt input it = .skippedMeta) ∧
    (∀ dto : String, parseExifDateTime dto = none ↔ ¬ specTimestampFormat dto) ∧
    (∀ (distGt : Center → ℚ → ℚ → ℚ → Bool) (env : Env)
      (input : FilterAndCopyInput) (outDir : String) (it : ExifData)
      (rest : List ExifData) (s m k : ℕ) (fs : List String),
      recordOutcome distGt input it = .skippedMeta →
      runLoop distGt env input outDir (it :: rest) s m k fs =
        runLoop distGt env input outDir rest (s + 1) m (k + 1) fs) := by
  refine ⟨?_, ?_, ?_, ?_⟩
  · intro distGt input it h
    simp [recordOutcome, h]
  · intro distGt input it dto h1 h2
    by_cases hd : dto = "" <;> simp [recordOutcome, h1, hd, h2]
  · intro dto
    rw [← parseExifDateTime_iff_spec]
    cases h : parseExifDateTime dto <;> simp [h]
  · intro distGt env input outDir it rest s m k fs h
    simp [runLoop, h]

/-- Witness for C2: a record with the unparsable timestamp `"not-a-date"` is
skipped under the empty filter. -/
theorem C2_missing_or_unparsable_timestamp_skipped_witness :
    ({ emptyRecord with DateTimeOriginal := some "not-a-date" } : ExifData).DateTimeOriginal
        = some "not-a-date" ∧
    parseExifDateTime "not-a-date" = none ∧
    recordOutcome (fun _ _ _ _ => false) emptyInput
      { emptyRecord with DateTimeOriginal := some "not-a-date" } = .skippedMeta :=
  ⟨rfl, by decide,
    C2_missing_or_unparsable_timestamp_skipped.2.1 (fun _ _ _ _ => false)
      emptyInput { emptyRecord with DateTimeOriginal := some "not-a-date" }
      "not-a-date" rfl (by decide)⟩

/-- The loop preserves `matched = files-added` and
`matched + skipped ≤ scanned`, and adds the item count to `scanned`. -/
theorem runLoop_ok_invariant (distGt : Center → ℚ → ℚ → ℚ → Bool)
    (env : Env) (input : FilterAndCopyInput) (outDir : String) :
    ∀ (items : List ExifData) (s m k : ℕ) (fs : List String)
      (s' m' k' : ℕ) (fs' : List String),
      runLoop distGt env input outDir items s m k fs = .ok (s', m', k', fs') →
      m = fs.length → m + k ≤ s →
      m' = fs'.length ∧ m' + k' ≤ s' ∧ s' = s + items.length := by
  intro items
  induction items with
  | nil =>
    intro s m k fs s' m' k' fs' h hm hk
    simp only [runLoop, Except.ok.injEq, Prod.mk.injEq] at h
    obtain ⟨rfl, rfl, rfl, rfl⟩ := h
    exact ⟨hm, hk, by simp⟩
  | cons it rest ih =>
    intro s m k fs s' m' k' fs' h hm hk
    rcases ho : recordOutcome distGt input it with _ | _ | src <;>
      simp only [runLoop, ho] at h
    · obtain ⟨h1, h2, h3⟩ := ih _ _ _ _ _ _ _ _ h hm (by omega)
      exact ⟨h1, h2, by simp [h3]; omega⟩
    · obtain ⟨h1, h2, h3⟩ := ih _ _ _ _ _ _ _ _ h hm (by omega)
      exact ⟨h1, h2, by simp [h3]; omega⟩
    · by_cases hstat : env.statOk src
      · simp only [hstat] at h
        by_cases hcopy : env.copyFails src
        · simp [hcopy] at h
        · simp only [hcopy, if_false, Bool.false_eq_true, if_neg] at h
          have hm' : m + 1 = (fs ++ [pathJoin outDir (basename src)]).length := by
            simp [hm]
          obtain ⟨h1, h2, h3⟩ := ih _ _ _ _ _ _ _ _ h hm' (by omega)
          exact ⟨h1, h2, by simp [h3]; omega⟩
      · simp only [hstat] at h
        obtain ⟨h1, h2, h3⟩ := ih _ _ _ _ _ _ _ _ h hm (by omega)
        exact ⟨h1, h2, by simp [h3]; omega⟩

/-- C1: a run that returns a report has `matched` equal to the number of
destination files, `matched + skipped_missing_meta` at most `scanned`, and
`scanned` equal to the number of records the extraction step supplied. -/
theorem C1_filterAndCopy_report_invariant :
    ∀ (distGt : Center → ℚ → ℚ → ℚ → Bool) (env : Env) (outRoot : String)
      (input : FilterAndCopyInput) (rep : MatchReport),
      filterAndCopy distGt env outRoot input = .ok rep →
      rep.matched = rep.files.length ∧
      rep.matched + rep.skipped_missing_meta ≤ rep.scanned ∧
      (∀ bd, input.base_dir = some bd → rep.scanned = (env.index bd).length) := by
  intro distGt env outRoot input rep h
  unfold filterAndCopy at h
  rcases hbd : input.base_dir with _ | bd <;> rw [hbd] at h <;> dsimp only at h
  · cases h
  · by_cases ht : jsTrim bd = ""
    · rw [if_pos ht] at h
      cases h
    · rw [if_neg ht] at h
      rcases hr : runLoop distGt env input
          (pathJoin outRoot (env.today ++ "_" ++ promptSlug input.original_prompt))
          (env.index bd) 0 0 0 [] with e | r
      · rw [hr] at h
        cases h
      · rw [hr] at h
        obtain ⟨s, m, k, fs⟩ := r
        simp only [Except.ok.injEq] at h
        subst h
        obtain ⟨h1, h2, h3⟩ :=
          runLoop_ok_invariant distGt env input _ _ _ _ _ _ _ _ _ _ hr rfl
            (by omega)
        refine ⟨h1, h2, ?_⟩
        intro bd' hbd'
        cases hbd'
        simpa using h3

/-- Sample data for the end-to-end witness run: one matchable record and one
record without a timestamp. -/
def sampleRecOk : ExifData :=
  { emptyRecord with
    SourceFile := "pics/a.jpg"
    DateTimeOriginal := some "2024:01:15 10:00:00" }

/-- A record the extraction step returns without any capture timestamp. -/
def sampleRecNoMeta : ExifData := { emptyRecord with SourceFile := "pics/b.jpg" }

/-- An environment whose extraction step returns the two sample records and
whose filesystem calls all succeed. -/
def sampleEnv : Env :=
  ⟨"2024-01-01", fun _ => [sampleRecOk, sampleRecNoMeta], fun _ => true,
    fun _ => false⟩

/-- A minimal valid input: a base directory, a prompt, no filters. -/
def sampleInput : FilterAndCopyInput :=
  ⟨some "pics", none, "trip", none, none, none, none, none, none, none⟩

/-- The report of the sample run. -/
def sampleReport : MatchReport :=
  ⟨2, 1, 1, "out/2024-01-01_trip", ["out/2024-01-01_trip/a.jpg"]⟩

/-- Witness for C1: the sample run returns its report and satisfies the
counting invariants. -/
theorem C1_filterAndCopy_report_invariant_witness :
    filterAndCopy (fun _ _ _ _ => false) sampleEnv "out" sampleInput =
      .ok sampleReport ∧
    sampleReport.matched = sampleReport.files.length ∧
    sampleReport.matched + sampleReport.skipped_missing_meta ≤
      sampleReport.scanned ∧
    sampleReport.scanned = (sampleEnv.index "pics").length :=
  ⟨rfl,
    (C1_filterAndCopy_report_invariant (fun _ _ _ _ => false) sampleEnv "out"
      sampleInput sampleReport rfl).1,
    (C1_filterAndCopy_report_invariant (fun _ _ _ _ => false) sampleEnv "out"
      sampleInput sampleReport rfl).2.1,
    (C1_filterAndCopy_report_invariant (fun _ _ _ _ => false) sampleEnv "out"
      sampleInput sampleReport rfl).2.2 "pics" rfl⟩
